import Mathlib

/-!
A model of the DynamoDB-backed session store in `src/lib/connect-dynamodb.js`.
The store's operations (`get`, `set`, `destroy`, `touch`) are embedded as
pure functions over an explicit table state: the backend is a finite
association from the string hash key `id` to the remaining item attributes,
and every backend request an operation issues is recorded in a request list.
JavaScript behaviours the source relies on (DynamoDB attribute-value wrapper
objects, the coercion of `>=` through ToPrimitive/ToNumber, falsiness of the
empty string, `JSON` round-tripping) are modelled explicitly where the
source exercises them.
-/

namespace ConnectDynamoDB

/-- Source line 15: `var oneDayInMilliseconds = 86400000;`. -/
def oneDayInMilliseconds : Int := 86400000

/-- Value found at `sess.cookie` when `set`/`touch` evaluate
`sess.cookie.maxAge` (source lines 154 and 260):
* `nullish`: the `cookie` attribute is missing, `undefined` or `null`, so
  reading `.maxAge` on it throws a `TypeError`;
* `nonObj`: a non-null primitive (string, number, boolean); property access
  boxes it and yields `undefined`, so `typeof ... === 'number'` is false;
* `obj m`: an object whose `maxAge` is the number `v` when `m = some v`,
  and is not a number when `m = none`. -/
inductive CookieVal
  | nullish
  | nonObj
  | obj (maxAge : Option Int)
deriving DecidableEq

/-- True exactly when `typeof sess.cookie.maxAge === 'number'` evaluates to
true (without throwing). -/
def CookieVal.hasNumericMaxAge : CookieVal → Bool
  | CookieVal.obj (some _) => true
  | _ => false

/-- The session payload handed to `set`/`touch` and produced by `get`: its
`cookie` value plus the rest of the JSON-serialisable object, kept opaque. -/
structure SessPayload where
  cookie : CookieVal
  data : String
deriving DecidableEq

/-- JavaScript strings as stored in the `sess` attribute, partitioned by how
`JSON.parse` treats them: `enc p` is the output of `JSON.stringify` on the
payload `p` (`JSON.stringify` is injective on payloads and its outputs are
nonempty, starting with a brace); `bad s` is a string that is not valid
JSON, on which `JSON.parse` throws — this includes the empty string. -/
inductive JsStr
  | enc (p : SessPayload)
  | bad (s : String)
deriving DecidableEq

/-- Emptiness of such a string: a `JSON.stringify` output is never empty. -/
def JsStr.isEmptyStr : JsStr → Bool
  | JsStr.enc _ => false
  | JsStr.bad s => s.isEmpty

/-- Model of `JSON.stringify(sess)` (source line 155). -/
def jsonStringify (p : SessPayload) : JsStr := JsStr.enc p

/-- Model of `JSON.parse` (source line 132): inverts `JSON.stringify` on its
image and throws (`none`) on strings that are not valid JSON. -/
def jsonParse : JsStr → Option SessPayload
  | JsStr.enc p => some p
  | JsStr.bad _ => none

/-- A DynamoDB number attribute value, i.e. the wrapper object
`{N: "<decimal>"}`; `val` is the number it denotes.  `set` writes
`JSON.stringify(expires)` and `touch` writes `expires.toString()` (source
lines 164 and 268), both the decimal notation of the number. -/
structure NAttr where
  val : Int
deriving DecidableEq

/-- The non-key attributes of a table item as this store reads and writes
them: the `expires` number attribute, the `type` string attribute (named
`typ` here) and the `sess` string attribute; any of them may be absent on
items not written by `set`. -/
structure Item where
  expires : Option NAttr
  typ : Option String
  sess : Option JsStr
deriving DecidableEq

/-- The item with only its `expires` attribute replaced. -/
def Item.withExpires (it : Item) (e : Int) : Item :=
  ⟨some ⟨e⟩, it.typ, it.sess⟩

/-- The DynamoDB table: a finite association from the string hash key `id`
to the item's remaining attributes. -/
abbrev Table := List (String × Item)

/-- DynamoDB `GetItem` (point read) on the hash key. -/
def lookupItem : Table → String → Option Item
  | [], _ => none
  | (k, it) :: rest, key => if k = key then some it else lookupItem rest key

def eraseKey : Table → String → Table
  | [], _ => []
  | (k, it) :: rest, key =>
      if k = key then eraseKey rest key else (k, it) :: eraseKey rest key

/-- DynamoDB `PutItem`: replaces the whole item stored at the key. -/
def putItem (t : Table) (k : String) (it : Item) : Table :=
  (k, it) :: eraseKey t k

/-- DynamoDB `DeleteItem`: removes the item at the key; deleting an absent
key succeeds and leaves the table unchanged. -/
def deleteItem (t : Table) (k : String) : Table :=
  eraseKey t k

/-- DynamoDB `UpdateItem` with `SET expires = :v` (source lines 261–269):
overwrites only the `expires` attribute of the item at the key, or creates a
fresh item holding just the key and `expires` when none exists
(creation-on-update). -/
def updateItemExpires (t : Table) (k : String) (e : Int) : Table :=
  match lookupItem t k with
  | some it => putItem t k (it.withExpires e)
  | none => putItem t k ⟨some ⟨e⟩, none, none⟩

/-- JavaScript ToNumber of an attribute-value wrapper object such as
`{N: "5000"}`: ToPrimitive falls back to `Object.prototype.toString`, which
yields the string `"[object Object]"`, whose ToNumber is NaN; modelled as
`none`. -/
def jsToNumberOfAttrObj (_e : NAttr) : Option Int := none

/-- JavaScript `>=` on numbers, with `none` standing for NaN: any relational
comparison involving NaN is false. -/
def jsGe : Option Int → Option Int → Bool
  | some a, some b => decide (a ≥ b)
  | _, _ => false

/-- Source line 121, `result.Item.expires && now >= result.Item.expires`:
false when the attribute is absent (falsy), otherwise the JS comparison of
the number `now` against the attribute wrapper object (never its numeric
content: the source does not project out `.N`). -/
def expiredCheck (expires : Option NAttr) (now : Int) : Bool :=
  match expires with
  | some e => jsGe (some now) (jsToNumberOfAttrObj e)
  | none => false

/-- Source lines 126–127, `var sess = result.Item.sess || { S: null }`
followed by `if (!sess.S)`: true when the `sess` attribute is absent or its
string is empty. -/
def sessFalsy : Option JsStr → Bool
  | none => true
  | some js => js.isEmptyStr

/-- Side condition used by claims about non-expired items: `now` is strictly
before the stored numeric expiry; vacuously true when no `expires` attribute
is stored. -/
def notPastExpiry (it : Item) (now : Int) : Bool :=
  match it.expires with
  | some e => decide (now < e.val)
  | none => true

/-- A backend request issued by the store, together with the key it
carries. -/
inductive Req
  | getI (key : String)
  | putI (key : String) (item : Item)
  | delI (key : String)
  | updI (key : String) (expires : Int)
deriving DecidableEq

def Req.key : Req → String
  | Req.getI k => k
  | Req.putI k _ => k
  | Req.delI k => k
  | Req.updI k _ => k

/-- True when every request in the list carries the key `k`. -/
def allKeysAre (rs : List Req) (k : String) : Bool :=
  rs.all fun r => r.key == k

/-- Outcome delivered to `get`'s callback: `err` for `fn(err)` and `ok s`
for `fn(null, s)` where `s` is the deserialised payload or null. -/
inductive GetOutcome
  | err
  | ok (sess : Option SessPayload)
deriving DecidableEq

/-- Result of a `get` call: the backend requests it issued, the table after
the call, and the callback outcome. -/
structure GetRes where
  reqs : List Req
  table : Table
  out : GetOutcome
deriving DecidableEq

/-- Result of a `destroy` call: the backend requests it issued and the table
after the call. -/
structure DestroyRes where
  reqs : List Req
  table : Table
deriving DecidableEq

/-- Source lines 236–245, `DynamoDBStore.prototype.destroy`: a single
`DeleteItem` whose key is the `sid` argument used verbatim — the configured
prefix is not applied in this function. -/
def destroyOp (tbl : Table) (sid : String) : DestroyRes :=
  ⟨[Req.delI sid], deleteItem tbl sid⟩

/-- Source lines 102–141, `DynamoDBStore.prototype.get`: a consistent point
read of `psid = prefix + sid`; no item yields `fn(null, null)`; an item
passing the (object-coerced) expiry test, or whose `sess` is absent or
empty, is destroyed via `this.destroy(psid, ...)` — note the already
prefixed key — before `fn(null, null)`; otherwise the stored string is
`JSON.parse`d, a throw being caught into `fn(err)`. -/
def getOp (pfx : String) (tbl : Table) (now : Int) (sid : String) : GetRes :=
  match lookupItem tbl (pfx ++ sid) with
  | none => ⟨[Req.getI (pfx ++ sid)], tbl, GetOutcome.ok none⟩
  | some item =>
      if expiredCheck item.expires now then
        ⟨Req.getI (pfx ++ sid) :: (destroyOp tbl (pfx ++ sid)).reqs,
          (destroyOp tbl (pfx ++ sid)).table, GetOutcome.ok none⟩
      else
        match item.sess with
        | none =>
            ⟨Req.getI (pfx ++ sid) :: (destroyOp tbl (pfx ++ sid)).reqs,
              (destroyOp tbl (pfx ++ sid)).table, GetOutcome.ok none⟩
        | some js =>
            if js.isEmptyStr then
              ⟨Req.getI (pfx ++ sid) :: (destroyOp tbl (pfx ++ sid)).reqs,
                (destroyOp tbl (pfx ++ sid)).table, GetOutcome.ok none⟩
            else
              match jsonParse js with
              | some p => ⟨[Req.getI (pfx ++ sid)], tbl, GetOutcome.ok (some p)⟩
              | none => ⟨[Req.getI (pfx ++ sid)], tbl, GetOutcome.err⟩

/-- Source line 154, the ternary in `set`:
`typeof sess.cookie.maxAge === 'number' ? (+new Date()) + sess.cookie.maxAge
: (+new Date()) + oneDayInMilliseconds`; `none` models the `TypeError`
thrown while reading `sess.cookie.maxAge` on a nullish `cookie`. -/
def setExpires (cookie : CookieVal) (now : Int) : Option Int :=
  match cookie with
  | CookieVal.nullish => none
  | CookieVal.nonObj => some (now + oneDayInMilliseconds)
  | CookieVal.obj none => some (now + oneDayInMilliseconds)
  | CookieVal.obj (some m) => some (now + m)

/-- Source line 260, the identical ternary in `touch` (the source repeats
the expression, see its `TODO: DRY` comment). -/
def touchExpires (cookie : CookieVal) (now : Int) : Option Int :=
  match cookie with
  | CookieVal.nullish => none
  | CookieVal.nonObj => some (now + oneDayInMilliseconds)
  | CookieVal.obj none => some (now + oneDayInMilliseconds)
  | CookieVal.obj (some m) => some (now + m)

/-- The TTL rule as the specification words it: `now + maxAge` when the
payload declares a numeric max-age, else `now + 86400000`.  Stated
separately from `setExpires`/`touchExpires` so that agreement with the
source's computation is a theorem, not a definition. -/
def specExpires (cookie : CookieVal) (now : Int) : Int :=
  match cookie with
  | CookieVal.obj (some m) => now + m
  | _ => now + oneDayInMilliseconds

/-- Result of a `set` or `touch` call: `thrown` when the expiry computation
threw before any backend request was issued (the callback is never invoked);
`done reqs tbl` when the single write request was issued and the callback
completed successfully. -/
inductive WriteRes
  | thrown
  | done (reqs : List Req) (table : Table)
deriving DecidableEq

/-- Source lines 152–176, `DynamoDBStore.prototype.set`: computes `expires`
(which may throw), serialises the payload, and issues one `PutItem` for the
full replacement item
`{id: prefix + sid, expires, type: 'connect-session', sess}`. -/
def setOp (pfx : String) (tbl : Table) (now : Int) (sid : String)
    (sess : SessPayload) : WriteRes :=
  match setExpires sess.cookie now with
  | none => WriteRes.thrown
  | some e =>
      WriteRes.done
        [Req.putI (pfx ++ sid)
          ⟨some ⟨e⟩, some "connect-session", some (jsonStringify sess)⟩]
        (putItem tbl (pfx ++ sid)
          ⟨some ⟨e⟩, some "connect-session", some (jsonStringify sess)⟩)

/-- Source lines 257–271, `DynamoDBStore.prototype.touch`: computes
`expires` (which may throw) and issues one `UpdateItem` setting only the
`expires` attribute of the item keyed by `prefix + sid`. -/
def touchOp (pfx : String) (tbl : Table) (now : Int) (sid : String)
    (sess : SessPayload) : WriteRes :=
  match touchExpires sess.cookie now with
  | none => WriteRes.thrown
  | some e =>
      WriteRes.done
        [Req.updI (pfx ++ sid) e]
        (updateItemExpires tbl (pfx ++ sid) e)

/-- Concrete fixture: a payload with a numeric `maxAge` of 5000. -/
def pAlice : SessPayload := ⟨CookieVal.obj (some 5000), "user:alice"⟩

/-- The item `set` stores for `pAlice` at time 0. -/
def itAlice : Item := ⟨some ⟨5000⟩, some "connect-session", some (JsStr.enc pAlice)⟩

/-- The table after `set("abc", pAlice)` at time 0 on an empty table. -/
def tblAlice : Table := [("sess:abc", itAlice)]

/-- Concrete fixture: a payload whose cookie object has no numeric
`maxAge`. -/
def pDefault : SessPayload := ⟨CookieVal.obj none, "alice"⟩

/-- The item `set` stores for `pDefault` at time 0 (one-day default TTL). -/
def itDefault : Item := ⟨some ⟨86400000⟩, some "connect-session", some (JsStr.enc pDefault)⟩

/-- Concrete fixture: a payload for `touch` with numeric `maxAge` 50. -/
def pTouch : SessPayload := ⟨CookieVal.obj (some 50), "ig"⟩

/-- The `pDefault` item after `touch` with `pTouch` at time 10. -/
def itDefault60 : Item := ⟨some ⟨60⟩, some "connect-session", some (JsStr.enc pDefault)⟩

/-- Concrete fixture: an item whose `sess` string is not valid JSON. -/
def itBad : Item := ⟨some ⟨5⟩, some "connect-session", some (JsStr.bad "notjson")⟩

/-- Concrete fixture: an item whose `sess` string is empty. -/
def itEmpty : Item := ⟨some ⟨99⟩, some "connect-session", some (JsStr.bad "")⟩

/-- Concrete fixture: an item with no attributes beyond its key. -/
def itBare : Item := ⟨none, none, none⟩

theorem expiredCheck_false (e : Option NAttr) (now : Int) :
    expiredCheck e now = false := by
  cases e <;> rfl

theorem lookupItem_putItem_self (t : Table) (k : String) (it : Item) :
    lookupItem (putItem t k it) k = some it := by
  simp [putItem, lookupItem]

theorem setExpires_eq_spec (c : CookieVal) (now : Int)
    (h : c ≠ CookieVal.nullish) :
    setExpires c now = some (specExpires c now) := by
  cases c with
  | nullish => exact absurd rfl h
  | nonObj => rfl
  | obj m => cases m <;> rfl

theorem touchExpires_eq_spec (c : CookieVal) (now : Int)
    (h : c ≠ CookieVal.nullish) :
    touchExpires c now = some (specExpires c now) := by
  cases c with
  | nullish => exact absurd rfl h
  | nonObj => rfl
  | obj m => cases m <;> rfl

theorem setOp_done (pfx : String) (tbl : Table) (now : Int) (sid : String)
    (p : SessPayload) (reqs : List Req) (tbl1 : Table)
    (h : setOp pfx tbl now sid p = WriteRes.done reqs tbl1) :
    reqs = [Req.putI (pfx ++ sid)
        ⟨some ⟨specExpires p.cookie now⟩, some "connect-session",
          some (jsonStringify p)⟩] ∧
    tbl1 = putItem tbl (pfx ++ sid)
        ⟨some ⟨specExpires p.cookie now⟩, some "connect-session",
          some (jsonStringify p)⟩ := by
  by_cases hc : p.cookie = CookieVal.nullish
  · rw [setOp, hc] at h
    exact absurd h (by simp [setExpires])
  · rw [setOp, setExpires_eq_spec p.cookie now hc] at h
    simp only [WriteRes.done.injEq] at h
    exact ⟨h.1.symm, h.2.symm⟩

theorem touchOp_done (pfx : String) (tbl : Table) (now : Int) (sid : String)
    (p : SessPayload) (reqs : List Req) (tbl1 : Table)
    (h : touchOp pfx tbl now sid p = WriteRes.done reqs tbl1) :
    reqs = [Req.updI (pfx ++ sid) (specExpires p.cookie now)] ∧
    tbl1 = updateItemExpires tbl (pfx ++ sid) (specExpires p.cookie now) := by
  by_cases hc : p.cookie = CookieVal.nullish
  · rw [touchOp, hc] at h
    exact absurd h (by simp [touchExpires])
  · rw [touchOp, touchExpires_eq_spec p.cookie now hc] at h
    simp only [WriteRes.done.injEq] at h
    exact ⟨h.1.symm, h.2.symm⟩

theorem updateItemExpires_found (t : Table) (k : String) (it : Item) (e : Int)
    (h : lookupItem t k = some it) :
    updateItemExpires t k e = putItem t k (it.withExpires e) := by
  unfold updateItemExpires
  rw [h]

theorem getOp_of_enc (pfx : String) (tbl : Table) (now : Int) (sid : String)
    (item : Item) (p : SessPayload)
    (hfind : lookupItem tbl (pfx ++ sid) = some item)
    (hsess : item.sess = some (JsStr.enc p)) :
    getOp pfx tbl now sid =
      ⟨[Req.getI (pfx ++ sid)], tbl, GetOutcome.ok (some p)⟩ := by
  unfold getOp
  rw [hfind]
  simp [expiredCheck_false, hsess, JsStr.isEmptyStr, jsonParse]

theorem getOp_of_falsy (pfx : String) (tbl : Table) (now : Int) (sid : String)
    (item : Item)
    (hfind : lookupItem tbl (pfx ++ sid) = some item)
    (hsess : sessFalsy item.sess = true) :
    getOp pfx tbl now sid =
      ⟨[Req.getI (pfx ++ sid), Req.delI (pfx ++ sid)],
        deleteItem tbl (pfx ++ sid), GetOutcome.ok none⟩ := by
  unfold getOp
  rw [hfind]
  cases hs : item.sess with
  | none => simp [expiredCheck_false, hs, destroyOp]
  | some js =>
      rw [hs] at hsess
      simp only [sessFalsy] at hsess
      simp [expiredCheck_false, hs, hsess, destroyOp]

theorem getOp_of_bad (pfx : String) (tbl : Table) (now : Int) (sid : String)
    (item : Item) (s : String)
    (hfind : lookupItem tbl (pfx ++ sid) = some item)
    (hsess : item.sess = some (JsStr.bad s))
    (hne : s.isEmpty = false) :
    getOp pfx tbl now sid = ⟨[Req.getI (pfx ++ sid)], tbl, GetOutcome.err⟩ := by
  unfold getOp
  rw [hfind]
  simp [expiredCheck_false, hsess, JsStr.isEmptyStr, hne, jsonParse]

theorem getOp_keys (pfx : String) (tbl : Table) (now : Int) (sid : String) :
    allKeysAre (getOp pfx tbl now sid).reqs (pfx ++ sid) = true := by
  unfold getOp
  cases hfind : lookupItem tbl (pfx ++ sid) with
  | none => simp [allKeysAre, Req.key]
  | some item =>
      simp only [expiredCheck_false, Bool.false_eq_true, if_false]
      cases hs : item.sess with
      | none => simp [allKeysAre, Req.key, destroyOp]
      | some js =>
          cases he : js.isEmptyStr with
          | true => simp [he, allKeysAre, Req.key, destroyOp]
          | false =>
              cases hp : jsonParse js with
              | none => simp [he, hp, allKeysAre, Req.key]
              | some q => simp [he, hp, allKeysAre, Req.key]

/-- C1 (code evaluation at the failing input): after `set("abc", pAlice)` at
time 0 with numeric `maxAge` 5000, a `get("abc")` at time 6000 — at or after
the write time plus the max-age — does NOT return a null payload and does
NOT delete the record: the source's expiry test compares the number `now`
against the attribute wrapper object `{N: "5000"}`, which coerces to NaN,
so the test is always false and the stored payload is returned with the
table unchanged. -/
theorem c1_expiry_check_never_fires :
    (0 : Int) + 5000 ≤ 6000 ∧
    setOp "sess:" [] 0 "abc" pAlice =
      WriteRes.done [Req.putI "sess:abc" itAlice] tblAlice ∧
    getOp "sess:" tblAlice 6000 "abc" =
      ⟨[Req.getI "sess:abc"], tblAlice, GetOutcome.ok (some pAlice)⟩ ∧
    lookupItem tblAlice "sess:abc" = some itAlice := by
  refine ⟨by decide, by decide, by decide, by decide⟩

/-- C2 (code evaluation at the failing input): `set("abc", pAlice)` creates
the record at key `"sess:abc"`, but `destroy("abc")` deletes the raw key
`"abc"` (no prefix applied), leaving the table unchanged; the following
`get("abc")` then finds the record and returns the payload, not null. -/
theorem c2_destroy_misses_prefixed_record :
    setOp "sess:" [] 0 "abc" pAlice =
      WriteRes.done [Req.putI "sess:abc" itAlice] tblAlice ∧
    destroyOp tblAlice "abc" = ⟨[Req.delI "abc"], tblAlice⟩ ∧
    getOp "sess:" tblAlice 1 "abc" =
      ⟨[Req.getI "sess:abc"], tblAlice, GetOutcome.ok (some pAlice)⟩ ∧
    GetOutcome.ok (some pAlice) ≠ GetOutcome.ok none := by
  refine ⟨by decide, by decide, by decide, by decide⟩

/-- C3: for every session id and JSON-serialisable payload with no numeric
cookie `maxAge`, if `set` succeeds then a `get` performed less than one day
(86400000 ms) after the write invokes its callback with no error and a
payload equal to the one stored. -/
theorem c3_get_after_set_roundtrip (pfx : String) (tbl : Table)
    (now now2 : Int) (sid : String) (p : SessPayload)
    (reqs : List Req) (tbl1 : Table)
    (hnum : p.cookie.hasNumericMaxAge = false)
    (hset : setOp pfx tbl now sid p = WriteRes.done reqs tbl1)
    (hwin : now2 - now < oneDayInMilliseconds) :
    getOp pfx tbl1 now2 sid =
      ⟨[Req.getI (pfx ++ sid)], tbl1, GetOutcome.ok (some p)⟩ := by
  obtain ⟨-, htbl⟩ := setOp_done pfx tbl now sid p reqs tbl1 hset
  subst htbl
  exact getOp_of_enc pfx _ now2 sid _ p
    (lookupItem_putItem_self tbl (pfx ++ sid) _) rfl

/-- C3 witness: a concrete instance of `c3_get_after_set_roundtrip`. -/
theorem c3_get_after_set_roundtrip_witness :
    pDefault.cookie.hasNumericMaxAge = false ∧
    setOp "sess:" [] 0 "a" pDefault =
      WriteRes.done [Req.putI "sess:a" itDefault] [("sess:a", itDefault)] ∧
    (100 : Int) - 0 < oneDayInMilliseconds ∧
    getOp "sess:" [("sess:a", itDefault)] 100 "a" =
      ⟨[Req.getI "sess:a"], [("sess:a", itDefault)],
        GetOutcome.ok (some pDefault)⟩ :=
  ⟨by decide, by decide, by decide,
    c3_get_after_set_roundtrip "sess:" [] 0 100 "a" pDefault
      [Req.putI "sess:a" itDefault] [("sess:a", itDefault)]
      (by decide) (by decide) (by decide)⟩

/-- C4: after a successful `set` and a successful `touch`, the `touch` call
issued exactly one partial-update request, keyed by the prefixed id and
setting only the `expires` attribute; the stored `sess` and `type`
attributes are unchanged, and a `get` immediately after the `touch` (before
the new expiry elapses) still returns the previously-set payload. -/
theorem c4_touch_updates_only_expires (pfx : String) (tbl : Table)
    (now now2 now3 : Int) (sid : String) (p p2 : SessPayload)
    (reqs1 reqs2 : List Req) (tbl1 tbl2 : Table)
    (hset : setOp pfx tbl now sid p = WriteRes.done reqs1 tbl1)
    (htouch : touchOp pfx tbl1 now2 sid p2 = WriteRes.done reqs2 tbl2)
    (hseq : now2 ≤ now3)
    (hfresh : now3 < specExpires p2.cookie now2) :
    reqs2 = [Req.updI (pfx ++ sid) (specExpires p2.cookie now2)] ∧
    lookupItem tbl2 (pfx ++ sid) =
      some ⟨some ⟨specExpires p2.cookie now2⟩, some "connect-session",
        some (jsonStringify p)⟩ ∧
    getOp pfx tbl2 now3 sid =
      ⟨[Req.getI (pfx ++ sid)], tbl2, GetOutcome.ok (some p)⟩ := by
  obtain ⟨-, htbl1⟩ := setOp_done pfx tbl now sid p reqs1 tbl1 hset
  obtain ⟨hreq2, htbl2⟩ := touchOp_done pfx tbl1 now2 sid p2 reqs2 tbl2 htouch
  subst htbl1
  rw [updateItemExpires_found _ (pfx ++ sid) _ _
    (lookupItem_putItem_self tbl (pfx ++ sid) _)] at htbl2
  subst htbl2
  refine ⟨hreq2, lookupItem_putItem_self _ _ _, ?_⟩
  exact getOp_of_enc pfx _ now3 sid _ p
    (lookupItem_putItem_self _ (pfx ++ sid) _) rfl

/-- C4 witness: a concrete instance of `c4_touch_updates_only_expires`. -/
theorem c4_touch_updates_only_expires_witness :
    setOp "sess:" [] 0 "a" pDefault =
      WriteRes.done [Req.putI "sess:a" itDefault] [("sess:a", itDefault)] ∧
    touchOp "sess:" [("sess:a", itDefault)] 10 "a" pTouch =
      WriteRes.done [Req.updI "sess:a" 60] [("sess:a", itDefault60)] ∧
    (10 : Int) ≤ 10 ∧
    (10 : Int) < specExpires pTouch.cookie 10 ∧
    ([Req.updI "sess:a" 60] =
        [Req.updI "sess:a" (specExpires pTouch.cookie 10)] ∧
      lookupItem [("sess:a", itDefault60)] "sess:a" =
        some ⟨some ⟨specExpires pTouch.cookie 10⟩, some "connect-session",
          some (jsonStringify pDefault)⟩ ∧
      getOp "sess:" [("sess:a", itDefault60)] 10 "a" =
        ⟨[Req.getI "sess:a"], [("sess:a", itDefault60)],
          GetOutcome.ok (some pDefault)⟩) :=
  ⟨by decide, by decide, by decide, by decide,
    c4_touch_updates_only_expires "sess:" [] 0 10 10 "a" pDefault pTouch
      [Req.putI "sess:a" itDefault] [Req.updI "sess:a" 60]
      [("sess:a", itDefault)] [("sess:a", itDefault60)]
      (by decide) (by decide) (by decide) (by decide)⟩

/-- C5: for every stored record whose `sess` attribute is present, nonempty
and not parseable as JSON, `get` invokes its callback with an error — no
crash escapes the call (the model is total) and no null-payload success is
reported; the table is left untouched. -/
theorem c5_get_malformed_sess_errors (pfx : String) (tbl : Table) (now : Int)
    (sid : String) (item : Item) (s : String)
    (hfind : lookupItem tbl (pfx ++ sid) = some item)
    (hsess : item.sess = some (JsStr.bad s))
    (hne : s.isEmpty = false) :
    getOp pfx tbl now sid = ⟨[Req.getI (pfx ++ sid)], tbl, GetOutcome.err⟩ :=
  getOp_of_bad pfx tbl now sid item s hfind hsess hne

/-- C5 witness: a concrete instance of `c5_get_malformed_sess_errors`. -/
theorem c5_get_malformed_sess_errors_witness :
    lookupItem [("sess:a", itBad)] "sess:a" = some itBad ∧
    itBad.sess = some (JsStr.bad "notjson") ∧
    ("notjson" : String).isEmpty = false ∧
    getOp "sess:" [("sess:a", itBad)] 0 "a" =
      ⟨[Req.getI "sess:a"], [("sess:a", itBad)], GetOutcome.err⟩ :=
  ⟨by decide, by decide, by decide,
    c5_get_malformed_sess_errors "sess:" [("sess:a", itBad)] 0 "a" itBad
      "notjson" (by decide) (by decide) (by decide)⟩

/-- C6: whenever `set` and `touch` do not throw, the `expires` value each
writes is `specExpires`, i.e. `now + maxAge` when the payload declares a
numeric max-age and `now + 86400000` (one day) otherwise, with `now` the
time at the start of the call: both operations follow the same TTL rule. -/
theorem c6_set_touch_ttl_rule (pfx : String) (tbl : Table) (now : Int)
    (sid : String) (p : SessPayload)
    (hc : p.cookie ≠ CookieVal.nullish) :
    setOp pfx tbl now sid p =
      WriteRes.done
        [Req.putI (pfx ++ sid)
          ⟨some ⟨specExpires p.cookie now⟩, some "connect-session",
            some (jsonStringify p)⟩]
        (putItem tbl (pfx ++ sid)
          ⟨some ⟨specExpires p.cookie now⟩, some "connect-session",
            some (jsonStringify p)⟩) ∧
    touchOp pfx tbl now sid p =
      WriteRes.done [Req.updI (pfx ++ sid) (specExpires p.cookie now)]
        (updateItemExpires tbl (pfx ++ sid) (specExpires p.cookie now)) := by
  rw [setOp, touchOp, setExpires_eq_spec p.cookie now hc,
    touchExpires_eq_spec p.cookie now hc]
  exact ⟨rfl, rfl⟩

/-- C6 witness: a concrete instance of `c6_set_touch_ttl_rule`. -/
theorem c6_set_touch_ttl_rule_witness :
    pAlice.cookie ≠ CookieVal.nullish ∧
    (setOp "sess:" [] 0 "abc" pAlice =
        WriteRes.done [Req.putI "sess:abc" itAlice] tblAlice ∧
      touchOp "sess:" [] 0 "abc" pAlice =
        WriteRes.done [Req.updI "sess:abc" 5000]
          [("sess:abc", ⟨some ⟨5000⟩, none, none⟩)]) :=
  ⟨by decide, c6_set_touch_ttl_rule "sess:" [] 0 "abc" pAlice (by decide)⟩

/-- C7: when `get` finds an item whose `sess` attribute is missing or
empty, and the item is not past its stored numeric expiry, it destroys the
physical record keyed by the prefixed id and invokes its callback with a
null payload and no error. -/
theorem c7_get_empty_sess_destroys (pfx : String) (tbl : Table) (now : Int)
    (sid : String) (item : Item)
    (hfind : lookupItem tbl (pfx ++ sid) = some item)
    (hsess : sessFalsy item.sess = true)
    (hexp : notPastExpiry item now = true) :
    getOp pfx tbl now sid =
      ⟨[Req.getI (pfx ++ sid), Req.delI (pfx ++ sid)],
        deleteItem tbl (pfx ++ sid), GetOutcome.ok none⟩ :=
  getOp_of_falsy pfx tbl now sid item hfind hsess

/-- C7 witness: a concrete instance of `c7_get_empty_sess_destroys`. -/
theorem c7_get_empty_sess_destroys_witness :
    lookupItem [("sess:a", itEmpty)] "sess:a" = some itEmpty ∧
    sessFalsy itEmpty.sess = true ∧
    notPastExpiry itEmpty 0 = true ∧
    getOp "sess:" [("sess:a", itEmpty)] 0 "a" =
      ⟨[Req.getI "sess:a", Req.delI "sess:a"], [], GetOutcome.ok none⟩ :=
  ⟨by decide, by decide, by decide,
    c7_get_empty_sess_destroys "sess:" [("sess:a", itEmpty)] 0 "a" itEmpty
      (by decide) (by decide) (by decide)⟩

/-- C8: every backend request issued by a `get`, a successful `set`, or a
successful `touch` carries the key `prefix ++ sid` (including the delete
that `get` cascades into), and the record `set` writes is stored at that
key with only the `expires`, `type` and `sess` attributes — the prefix is
never stored as a separate attribute. -/
theorem c8_requests_use_prefixed_key (pfx : String) (tbl : Table)
    (now : Int) (sid : String) (p : SessPayload)
    (reqsS reqsT : List Req) (tblS tblT : Table)
    (hset : setOp pfx tbl now sid p = WriteRes.done reqsS tblS)
    (htouch : touchOp pfx tbl now sid p = WriteRes.done reqsT tblT) :
    allKeysAre (getOp pfx tbl now sid).reqs (pfx ++ sid) = true ∧
    allKeysAre reqsS (pfx ++ sid) = true ∧
    allKeysAre reqsT (pfx ++ sid) = true ∧
    tblS = putItem tbl (pfx ++ sid)
      ⟨some ⟨specExpires p.cookie now⟩, some "connect-session",
        some (jsonStringify p)⟩ := by
  obtain ⟨hreqS, htblS⟩ := setOp_done pfx tbl now sid p reqsS tblS hset
  obtain ⟨hreqT, -⟩ := touchOp_done pfx tbl now sid p reqsT tblT htouch
  subst hreqS hreqT
  exact ⟨getOp_keys pfx tbl now sid, by simp [allKeysAre, Req.key],
    by simp [allKeysAre, Req.key], htblS⟩

/-- C8 witness: a concrete instance of `c8_requests_use_prefixed_key`. -/
theorem c8_requests_use_prefixed_key_witness :
    setOp "sess:" [] 0 "abc" pAlice =
      WriteRes.done [Req.putI "sess:abc" itAlice] tblAlice ∧
    touchOp "sess:" [] 0 "abc" pAlice =
      WriteRes.done [Req.updI "sess:abc" 5000]
        [("sess:abc", ⟨some ⟨5000⟩, none, none⟩)] ∧
    (allKeysAre (getOp "sess:" [] 0 "abc").reqs "sess:abc" = true ∧
      allKeysAre [Req.putI "sess:abc" itAlice] "sess:abc" = true ∧
      allKeysAre [Req.updI "sess:abc" 5000] "sess:abc" = true ∧
      tblAlice = putItem [] "sess:abc"
        ⟨some ⟨specExpires pAlice.cookie 0⟩, some "connect-session",
          some (jsonStringify pAlice)⟩) :=
  ⟨by decide, by decide,
    c8_requests_use_prefixed_key "sess:" [] 0 "abc" pAlice
      [Req.putI "sess:abc" itAlice] [Req.updI "sess:abc" 5000]
      tblAlice [("sess:abc", ⟨some ⟨5000⟩, none, none⟩)]
      (by decide) (by decide)⟩

/-- C9: `destroy` issues its delete-item request with the key equal to its
`sid` argument verbatim, never applying the prefix, while the internal
cleanup call inside `get` (here exhibited on the reachable
missing-or-empty-`sess` branch) deletes the already-prefixed key — so the
effective key deleted differs depending on the caller. -/
theorem c9_destroy_key_verbatim (pfx : String) (tbl : Table) (now : Int)
    (sid : String) (item : Item)
    (hfind : lookupItem tbl (pfx ++ sid) = some item)
    (hsess : sessFalsy item.sess = true) :
    destroyOp tbl sid = ⟨[Req.delI sid], deleteItem tbl sid⟩ ∧
    (getOp pfx tbl now sid).reqs =
      [Req.getI (pfx ++ sid), Req.delI (pfx ++ sid)] := by
  refine ⟨rfl, ?_⟩
  rw [getOp_of_falsy pfx tbl now sid item hfind hsess]

/-- C9 witness: a concrete instance of `c9_destroy_key_verbatim`. -/
theorem c9_destroy_key_verbatim_witness :
    lookupItem [("sess:a", itBare)] "sess:a" = some itBare ∧
    sessFalsy itBare.sess = true ∧
    (destroyOp [("sess:a", itBare)] "a" =
        ⟨[Req.delI "a"], deleteItem [("sess:a", itBare)] "a"⟩ ∧
      (getOp "sess:" [("sess:a", itBare)] 0 "a").reqs =
        [Req.getI "sess:a", Req.delI "sess:a"]) :=
  ⟨by decide, by decide,
    c9_destroy_key_verbatim "sess:" [("sess:a", itBare)] 0 "a" itBare
      (by decide) (by decide)⟩

/-- C10 counterexample: a payload whose `cookie` is a non-null primitive —
so not an object — does NOT make `set` or `touch` throw: reading `.maxAge`
on a boxed primitive yields `undefined`, so the one-day default TTL applies
and the backend request is issued. -/
theorem c10_cookie_not_object_no_throw :
    setOp "sess:" [] 0 "a" ⟨CookieVal.nonObj, "x"⟩ =
      WriteRes.done
        [Req.putI "sess:a" ⟨some ⟨86400000⟩, some "connect-session",
          some (JsStr.enc ⟨CookieVal.nonObj, "x"⟩)⟩]
        [("sess:a", ⟨some ⟨86400000⟩, some "connect-session",
          some (JsStr.enc ⟨CookieVal.nonObj, "x"⟩)⟩)] ∧
    touchOp "sess:" [] 0 "a" ⟨CookieVal.nonObj, "x"⟩ ≠ WriteRes.thrown := by
  refine ⟨by decide, by decide⟩

/-- C10 (amended): for every payload whose `cookie` attribute is missing,
`undefined` or `null`, both `set` and `touch` throw while computing the
expiry (reading `p.cookie.maxAge`) before issuing any backend request and
never invoke the completion callback; payloads whose cookie is a non-null
primitive do not throw and fall through to the one-day default TTL, as do
cookie objects without a numeric `maxAge`. -/
theorem c10_nullish_cookie_throws (pfx : String) (tbl : Table) (now : Int)
    (sid : String) (p : SessPayload)
    (hc : p.cookie = CookieVal.nullish) :
    setOp pfx tbl now sid p = WriteRes.thrown ∧
    touchOp pfx tbl now sid p = WriteRes.thrown ∧
    setExpires CookieVal.nonObj now = some (now + oneDayInMilliseconds) ∧
    touchExpires CookieVal.nonObj now = some (now + oneDayInMilliseconds) ∧
    setExpires (CookieVal.obj none) now =
      some (now + oneDayInMilliseconds) := by
  rw [setOp, touchOp, hc]
  exact ⟨rfl, rfl, rfl, rfl, rfl⟩

/-- C10 witness: a concrete instance of `c10_nullish_cookie_throws`. -/
theorem c10_nullish_cookie_throws_witness :
    (⟨CookieVal.nullish, "x"⟩ : SessPayload).cookie = CookieVal.nullish ∧
    (setOp "sess:" [] 0 "a" ⟨CookieVal.nullish, "x"⟩ = WriteRes.thrown ∧
      touchOp "sess:" [] 0 "a" ⟨CookieVal.nullish, "x"⟩ = WriteRes.thrown ∧
      setExpires CookieVal.nonObj 0 = some (0 + oneDayInMilliseconds) ∧
      touchExpires CookieVal.nonObj 0 = some (0 + oneDayInMilliseconds) ∧
      setExpires (CookieVal.obj none) 0 =
        some (0 + oneDayInMilliseconds)) :=
  ⟨rfl, c10_nullish_cookie_throws "sess:" [] 0 "a" ⟨CookieVal.nullish, "x"⟩ rfl⟩

end ConnectDynamoDB
